import Mathlib

/-!
Verification development for the pyvcontrol P300 protocol engine.

The definitions below are a shallow embedding of the protocol core:
`vi_access_mode.py` (AccessMode), `viCommand.py` (command table VITOCAL_WO1C
and the viCommand class), `vi_telegram.py` (viTelegram framing/parsing),
`vi_data.py` (the value codec) and `viControl.py` (execute_command and
initialize_communication).  Bytes are modelled as `Nat` values (0..255 by
construction), byte strings as `List Nat`.  Python exceptions are modelled
with `Except` over explicit error inductives; builtin exceptions
(OverflowError, struct.error, ValueError) get their own constructors,
distinct from the typed library exceptions.
-/

deriving instance DecidableEq for Except

/-- Access mode tag, from vi_access_mode.py (`AccessMode(bytes, Enum)`). -/
inductive AccessMode
  | read
  | write
  | call
deriving DecidableEq, Repr

/-- The wire byte of each access mode (READ=01, WRITE=02, CALL=07). -/
def AccessMode.byte : AccessMode → Nat
  | .read => 1
  | .write => 2
  | .call => 7

/-- `AccessMode.allows` from vi_access_mode.py:
`if self == WRITE and other in [READ, WRITE]: return True; return self == other`. -/
def AccessMode.allows (self other : AccessMode) : Bool :=
  if self = .write ∧ other ∈ [AccessMode.read, AccessMode.write] then true
  else decide (self = other)

/-- A command record, from viCommand.py / vi_command.py: address bytes, codec
unit, value byte count, access mode, name and optional bounds. -/
structure ViCommand where
  address : List Nat
  unit : String
  value_bytes : Nat
  access_mode : AccessMode
  command_name : String
  min_value : Option Int
  max_value : Option Int
deriving DecidableEq, Repr

/-- The VITOCAL_WO1C command table from viCommand.py (addresses as bytes,
`access_mode` defaulting to read where the source omits it). -/
def VITOCAL_WO1C : List ViCommand := [
  ⟨[0x01, 0x0d], "IS10", 2, .read, "Warmwassertemperatur", none, none⟩,
  ⟨[0x01, 0x01], "IS10", 2, .read, "Aussentemperatur", none, none⟩,
  ⟨[0x01, 0x05], "IS10", 2, .read, "VorlauftempSek", none, none⟩,
  ⟨[0x01, 0x06], "IS10", 2, .read, "RuecklauftempSek", none, none⟩,
  ⟨[0xb4, 0x21], "IUNON", 2, .read, "Sekundaerpumpe", none, none⟩,
  ⟨[0x16, 0x3f], "IUNON", 1, .read, "FaktorEnergiebilanz", none, none⟩,
  ⟨[0x16, 0x40], "IUNON", 4, .read, "Heizwaerme", none, none⟩,
  ⟨[0x16, 0x60], "IUNON", 4, .read, "Heizenergie", none, none⟩,
  ⟨[0x16, 0x50], "IUNON", 4, .read, "WWwaerme", none, none⟩,
  ⟨[0x16, 0x70], "IUNON", 4, .read, "WWenergie", none, none⟩,
  ⟨[0xb4, 0x23], "IUNON", 4, .read, "Verdichter", none, none⟩,
  ⟨[0xb4, 0x10], "IS10", 3, .read, "DruckSauggas", none, none⟩,
  ⟨[0xb4, 0x11], "IS10", 3, .read, "DruckHeissgas", none, none⟩,
  ⟨[0xb4, 0x09], "IS10", 3, .read, "TempSauggas", none, none⟩,
  ⟨[0xb4, 0x0a], "IS10", 3, .read, "TempHeissgas", none, none⟩,
  ⟨[0x00, 0xf8], "DT", 4, .read, "Anlagentyp", none, none⟩,
  ⟨[0xb0, 0x00], "BA", 1, .write, "Betriebsmodus", none, none⟩,
  ⟨[0xb0, 0x20], "OO", 1, .write, "WWeinmal", none, none⟩,
  ⟨[0x60, 0x00], "IS10", 2, .write, "SolltempWarmwasser", some 10, some 60⟩,
  ⟨[0x73, 0x04], "IU10", 2, .write, "Hysterese_Vorlauf_ein", none, none⟩,
  ⟨[0x73, 0x13], "IU10", 2, .write, "Hysterese_Vorlauf_aus", none, none⟩,
  ⟨[0xb8, 0x00], "F_E", 16, .call, "Energiebilanz", none, none⟩
]

/-- `viCommand(command_name)` lookup by name in the command set. -/
def viCommand_by_name (command_name : String) : Option ViCommand :=
  VITOCAL_WO1C.find? (fun c => c.command_name == command_name)

/-- `viCommand.__init__`: bytearray representation, address followed by the
value byte count. -/
def ViCommand.as_bytearray (c : ViCommand) : List Nat :=
  c.address ++ [c.value_bytes]

/-- `viCommand._from_bytes`: resolve a command from its first two address
bytes by scanning the command set. -/
def viCommand_from_bytes (b : List Nat) : Option ViCommand :=
  VITOCAL_WO1C.find? (fun c => c.address == b.take 2)

/-- `viCommand.response_length`: read -> 3 + value bytes, write -> 3,
anything else (function call) -> 3 + value bytes. -/
def ViCommand.response_length (c : ViCommand) (access_mode : AccessMode) : Nat :=
  if access_mode = .read then 3 + c.value_bytes
  else if access_mode = .write then 3
  else 3 + c.value_bytes

/-- The telegram start byte 0x41. -/
def tStartByte : Nat := 0x41

/-- `viTelegram._checksum_byte` without the final 1-byte encoding: 0 for an
empty packet or a packet not starting with the start byte, otherwise the sum
of all bytes after the start byte, mod 256. -/
def checksum_val (packet : List Nat) : Nat :=
  if packet.length = 0 then 0
  else if packet.take 1 ≠ [tStartByte] then 0
  else (packet.drop 1).sum % 256

/-- `viTelegram._checksum_byte`: the checksum encoded as a single byte. -/
def checksum_byte (packet : List Nat) : List Nat :=
  [checksum_val packet]

/-- A telegram value: resolved command, raw type byte(s), raw mode byte(s)
and payload, mirroring the fields set by `viTelegram.__init__`. -/
structure ViTelegram where
  vicmd : ViCommand
  tType : List Nat
  tMode : List Nat
  payload : List Nat
deriving DecidableEq, Repr

/-- Errors raised while building or parsing telegrams: the two
viTelegramException cases, the viCommandException from command resolution,
and the builtin OverflowError from `data_length.to_bytes(1, "big")`. -/
inductive viTelegramError
  | checksum_not_valid (expected computed : List Nat)
  | startbyte_not_found
  | no_matching_command (address : List Nat)
  | int_too_big
deriving DecidableEq, Repr

/-- `viTelegram.__init__` byte representation: header (start byte, data
length, type, mode) then command bytes, payload and checksum.  The data
length byte overflows (builtin OverflowError) when it does not fit one byte. -/
def viTelegram_bytes (t : ViTelegram) : Except viTelegramError (List Nat) :=
  let data_length := 2 + t.vicmd.as_bytearray.length + t.payload.length
  if data_length < 256 then
    let body := [tStartByte, data_length] ++ t.tType ++ t.tMode
      ++ t.vicmd.as_bytearray ++ t.payload
    .ok (body ++ checksum_byte body)
  else
    .error .int_too_big

/-- Building a request telegram as `viTelegram(vc, access_mode, payload)`
does: type byte defaults to request (0x00), mode byte from the mode table. -/
def viTelegram_build (vc : ViCommand) (tMode : AccessMode) (payload : List Nat) :
    Except viTelegramError (List Nat) :=
  viTelegram_bytes ⟨vc, [0x00], [tMode.byte], payload⟩

/-- `viTelegram.telegram_mode`: reverse lookup of the raw mode byte. -/
def ViTelegram.telegram_mode (t : ViTelegram) : Option AccessMode :=
  if t.tMode = [0x01] then some .read
  else if t.tMode = [0x02] then some .write
  else if t.tMode = [0x07] then some .call
  else none

/-- `viTelegram.response_length`: start byte + length byte + type + mode
(4 bytes), the command response length, and the checksum byte. -/
def ViTelegram.response_length (t : ViTelegram) : Option Nat :=
  t.telegram_mode.map (fun m => 4 + t.vicmd.response_length m + 1)

/-- `viTelegram.from_bytes`: validate the trailing checksum byte, then the
start byte, then resolve the command from bytes 4..5; the payload is the
byte range from position 7 up to the checksum byte; reconstructing the
telegram recomputes the data-length byte, which can
overflow for long frames. -/
def viTelegram_from_bytes (b : List Nat) : Except viTelegramError ViTelegram :=
  let lastByte := b.drop (b.length - 1)
  let firstBytes := b.take (b.length - 1)
  if lastByte ≠ checksum_byte firstBytes then
    .error (.checksum_not_valid lastByte (checksum_byte firstBytes))
  else if b.take 1 ≠ [tStartByte] then
    .error .startbyte_not_found
  else
    match viCommand_from_bytes ((b.drop 4).take 2) with
    | none => .error (.no_matching_command ((b.drop 4).take 2))
    | some vicmd =>
      let payload := (b.drop 7).take (b.length - 1 - 7)
      let data_length := 2 + vicmd.as_bytearray.length + payload.length
      if data_length < 256 then
        .ok ⟨vicmd, (b.drop 2).take 1, (b.drop 3).take 1, payload⟩
      else
        .error .int_too_big

/-- `int.from_bytes(b, "little")`, unsigned. -/
def int_from_bytes_le (b : List Nat) : Nat :=
  b.foldr (fun x acc => x + 256 * acc) 0

/-- `int.from_bytes(b, "big")`, unsigned. -/
def int_from_bytes_be (b : List Nat) : Nat :=
  b.foldl (fun acc x => 256 * acc + x) 0

/-- `int.from_bytes(b, "little", signed=True)`: two's complement. -/
def int_from_bytes_le_signed (b : List Nat) : Int :=
  let u := int_from_bytes_le b
  if 2 * u < 256 ^ b.length then (u : Int) else (u : Int) - (256 ^ b.length : Nat)

/-- Little-endian byte encoding of a natural number into a fixed width. -/
def nat_to_bytes_le : Nat → Nat → List Nat
  | 0, _ => []
  | w + 1, n => n % 256 :: nat_to_bytes_le w (n / 256)

/-- The value codec errors: the typed ViDataError plus the builtin Python
exceptions that can escape the codec (OverflowError from `int.to_bytes`,
struct.error from `unpack`, ValueError from `int` of a bad string). -/
inductive ViDataException
  | vi_data_error (msg : String)
  | overflow_error
  | struct_error
  | value_error
deriving DecidableEq, Repr

/-- `n.to_bytes(w, "little", signed=False)`: OverflowError when n is
negative or does not fit w bytes. -/
def to_bytes_le_unsigned (w : Nat) (n : Int) : Except ViDataException (List Nat) :=
  if n < 0 ∨ (256 ^ w : Nat) ≤ n then .error .overflow_error
  else .ok (nat_to_bytes_le w n.toNat)

/-- `n.to_bytes(w, "little", signed=True)`: OverflowError outside the
two's-complement range of w bytes. -/
def to_bytes_le_signed (w : Nat) (n : Int) : Except ViDataException (List Nat) :=
  if 2 * n < -(256 ^ w : Nat) ∨ (256 ^ w : Nat) ≤ 2 * n then .error .overflow_error
  else .ok (nat_to_bytes_le w (Int.toNat (n % (256 ^ w : Nat))))

/-- Python `int(q)` on a number: truncation toward zero. -/
def py_int (q : ℚ) : Int :=
  if q < 0 then -Int.floor (-q) else Int.floor q

/-- Convert a run of decimal digits; none when empty or not all digits. -/
def digits_to_nat (cs : List Char) : Option Nat :=
  if cs ≠ [] ∧ cs.all Char.isDigit then
    some (cs.foldl (fun a c => 10 * a + (c.toNat - 48)) 0)
  else none

/-- Python `int(s)` on a string: optional sign then decimal digits,
ValueError otherwise (modelled for plain decimal strings). -/
def py_int_of_string (s : String) : Option Int :=
  match s.toList with
  | '-' :: rest => (digits_to_nat rest).map (fun n => -(n : Int))
  | cs => (digits_to_nat cs).map (fun n => (n : Int))

/-- Python `s * n` on a string: n-fold repetition. -/
def py_str_repeat (s : String) (n : Nat) : String :=
  String.join (List.replicate n s)

/-- A dynamically-typed constructor argument: `bytes`/`bytearray` take the
raw path of `ViData.__init__`, numbers and strings the value path. -/
inductive PyVal
  | raw (b : List Nat)
  | num (q : ℚ)
  | str (s : String)
deriving DecidableEq, Repr

/-- Find the description for a code in an enumerated table. -/
def lookup_value (tbl : List (Nat × String)) (k : Nat) : Option String :=
  (tbl.find? (fun p => p.1 == k)).map (fun p => p.2)

/-- Find the code for a description in an enumerated table. -/
def lookup_code (tbl : List (Nat × String)) (v : String) : Option Nat :=
  (tbl.find? (fun p => p.2 == v)).map (fun p => p.1)

/-- `ViDataBA.operating_modes`. -/
def BA_operating_modes : List (Nat × String) :=
  [(0x00, "OFF"), (0x01, "WW"), (0x02, "HEATING_WW")]

/-- ViDataBA construction: raw bytes must decode (little-endian) to a known
operating mode; a value argument must be one of the mode strings (a number is
never a mode string, so it raises the typed error). -/
def ViDataBA_create : PyVal → Except ViDataException (List Nat)
  | .raw b =>
    if (lookup_value BA_operating_modes (int_from_bytes_le b)).isSome then .ok b
    else .error (.vi_data_error "Unknown operating mode")
  | .str s =>
    match lookup_code BA_operating_modes s with
    | some k => .ok [k]
    | none => .error (.vi_data_error "Unknown operating mode")
  | .num _ => .error (.vi_data_error "Unknown operating mode")

/-- `ViDataBA.value`: decode the stored byte to the mode string. -/
def ViDataBA_value (b : List Nat) : Option String :=
  lookup_value BA_operating_modes (int_from_bytes_le b)

/-- `ViDataDT.device_types`. -/
def DT_device_types : List (Nat × String) :=
  [(0x2098, "V200KW2, Protokoll: KW2"),
   (0x2053, "GWG_VBEM, Protokoll: GWG"),
   (0x20CB, "VScotHO1, Protokoll: P300"),
   (0x2094, "V200KW1, Protokoll: KW2"),
   (0x209F, "V200KO1B, Protokoll: P300, KW2"),
   (0x204D, "V200WO1C, Protokoll: P300"),
   (0x204B, "Vitocal 333G, Protokoll: P300"),
   (0x20B8, "V333MW1, Protokoll: "),
   (0x20A0, "V100GC1, Protokoll: "),
   (0x20C2, "VDensHO1, Protokoll: "),
   (0x20A4, "V200GW1, Protokoll: "),
   (0x20C8, "VPlusHO1, Protokoll: "),
   (0x2046, "V200WO1,VBC700, Protokoll: "),
   (0x2047, "V200WO1,VBC700, Protokoll: "),
   (0x2049, "V200WO1,VBC700, Protokoll: "),
   (0x2032, "VBC550, Protokoll: "),
   (0x2033, "VBC550, Protokoll: "),
   (0x0000, "unknown")]

/-- ViDataDT construction: raw bytes must decode (big-endian) to a known
device code; a value argument must be a known device name string. -/
def ViDataDT_create : PyVal → Except ViDataException (List Nat)
  | .raw b =>
    if (lookup_value DT_device_types (int_from_bytes_be b)).isSome then .ok b
    else .error (.vi_data_error "Unknown device code")
  | .str s =>
    match lookup_code DT_device_types s with
    | some k => .ok [k / 256, k % 256]
    | none => .error (.vi_data_error "Unknown device name")
  | .num _ => .error (.vi_data_error "Unknown device name")

/-- `ViDataDT.value`. -/
def ViDataDT_value (b : List Nat) : Option String :=
  lookup_value DT_device_types (int_from_bytes_be b)

/-- `ViDataRT.returnstatus`. -/
def RT_returnstatus : List (Nat × String) :=
  [(0x00, "0"), (0x01, "1"), (0x03, "2"), (0xAA, "Not OK")]

/-- ViDataRT construction (big-endian lookup). -/
def ViDataRT_create : PyVal → Except ViDataException (List Nat)
  | .raw b =>
    if (lookup_value RT_returnstatus (int_from_bytes_be b)).isSome then .ok b
    else .error (.vi_data_error "Unknown return status")
  | .str s =>
    match lookup_code RT_returnstatus s with
    | some k => .ok [k]
    | none => .error (.vi_data_error "Unknown return status")
  | .num _ => .error (.vi_data_error "Unknown return status")

/-- `ViDataOO.OnOff`. -/
def OO_on_off : List (Nat × String) :=
  [(0x00, "Off"), (0x01, "Manual"), (0x02, "On")]

/-- ViDataOO construction (big-endian lookup). -/
def ViDataOO_create : PyVal → Except ViDataException (List Nat)
  | .raw b =>
    if (lookup_value OO_on_off (int_from_bytes_be b)).isSome then .ok b
    else .error (.vi_data_error "Unknown value")
  | .str s =>
    match lookup_code OO_on_off s with
    | some k => .ok [k]
    | none => .error (.vi_data_error "Unknown value")
  | .num _ => .error (.vi_data_error "Unknown value")

/-- `ViDataOO.value`. -/
def ViDataOO_value (b : List Nat) : Option String :=
  lookup_value OO_on_off (int_from_bytes_be b)

/-- `ViDataES.errorset`. -/
def ES_errorset : List (Nat × String) :=
  [(0x00, "Regelbetrieb (kein Fehler)"),
   (0x0F, "Wartung (fuer Reset Codieradresse 24 auf 0 stellen)"),
   (0x10, "Kurzschluss Aussentemperatursensor"),
   (0x18, "Unterbrechung Aussentemperatursensor"),
   (0x20, "Kurzschluss Vorlauftemperatursensor"),
   (0x21, "Kurzschluss Ruecklauftemperatursensor"),
   (0x28, "Unterbrechung Aussentemperatursensor"),
   (0x29, "Unterbrechung Ruecklauftemperatursensor"),
   (0x30, "Kurzschluss Kesseltemperatursensor"),
   (0x38, "Unterbrechung Kesseltemperatursensor"),
   (0x40, "Kurzschluss Vorlauftemperatursensor M2"),
   (0x42, "Unterbrechung Vorlauftemperatursensor M2"),
   (0x50, "Kurzschluss Speichertemperatursensor"),
   (0x58, "Unterbrechung Speichertemperatursensor"),
   (0x92, "Solar: Kurzschluss Kollektortemperatursensor"),
   (0x93, "Solar: Kurzschluss Sensor S3"),
   (0x94, "Solar: Kurzschluss Speichertemperatursensor"),
   (0x9A, "Solar: Unterbrechung Kollektortemperatursensor"),
   (0x9B, "Solar: Unterbrechung Sensor S3"),
   (0x9C, "Solar: Unterbrechung Speichertemperatursensor"),
   (0x9E, "Solar: Zu geringer bzw. kein Volumenstrom oder Temperaturwaechter ausgeloest"),
   (0x9F, "Solar: Fehlermeldung Solarteil (siehe Solarregler)"),
   (0xA7, "Bedienteil defekt"),
   (0xB0, "Kurzschluss Abgastemperatursensor"),
   (0xB1, "Kommunikationsfehler Bedieneinheit"),
   (0xB4, "Interner Fehler (Elektronik)"),
   (0xB5, "Interner Fehler (Elektronik)"),
   (0xB6, "Ungueltige Hardwarekennung (Elektronik)"),
   (0xB7, "Interner Fehler (Kesselkodierstecker)"),
   (0xB8, "Unterbrechung Abgastemperatursensor"),
   (0xB9, "Interner Fehler (Dateneingabe wiederholen)"),
   (0xBA, "Kommunikationsfehler Erweiterungssatz fuer Mischerkreis M2"),
   (0xBC, "Kommunikationsfehler Fernbedienung Vitorol, Heizkreis M1"),
   (0xBD, "Kommunikationsfehler Fernbedienung Vitorol, Heizkreis M2"),
   (0xBE, "Falsche Codierung Fernbedienung Vitorol"),
   (0xC1, "Externe Sicherheitseinrichtung (Kessel kuehlt aus)"),
   (0xC2, "Kommunikationsfehler Solarregelung"),
   (0xC5, "Kommunikationsfehler drehzahlgeregelte Heizkreispumpe, Heizkreis M1"),
   (0xC6, "Kommunikationsfehler drehzahlgeregelte Heizkreispumpe, Heizkreis M2"),
   (0xC7, "Falsche Codierung der Heizkreispumpe"),
   (0xC9, "Stoermeldeeingang am Schaltmodul-V aktiv"),
   (0xCD, "Kommunikationsfehler Vitocom 100 (KM-BUS)"),
   (0xCE, "Kommunikationsfehler Schaltmodul-V"),
   (0xCF, "Kommunikationsfehler LON Modul"),
   (0xD1, "Brennerstoerung"),
   (0xD4, "Sicherheitstemperaturbegrenzer hat ausgeloest oder Stoermeldemodul nicht richtig gesteckt"),
   (0xDA, "Kurzschluss Raumtemperatursensor, Heizkreis M1"),
   (0xDB, "Kurzschluss Raumtemperatursensor, Heizkreis M2"),
   (0xDD, "Unterbrechung Raumtemperatursensor, Heizkreis M1"),
   (0xDE, "Unterbrechung Raumtemperatursensor, Heizkreis M2"),
   (0xE4, "Fehler Versorgungsspannung"),
   (0xE5, "Interner Fehler (Ionisationselektrode)"),
   (0xE6, "Abgas- / Zuluftsystem verstopft"),
   (0xF0, "Interner Fehler (Regelung tauschen)"),
   (0xF1, "Abgastemperaturbegrenzer ausgeloest"),
   (0xF2, "Temperaturbegrenzer ausgeloest"),
   (0xF3, "Flammensigal beim Brennerstart bereits vorhanden"),
   (0xF4, "Flammensigal nicht vorhanden"),
   (0xF7, "Differenzdrucksensor defekt"),
   (0xF8, "Brennstoffventil schliesst zu spaet"),
   (0xF9, "Geblaesedrehzahl beim Brennerstart zu niedrig"),
   (0xFA, "Geblaesestillstand nicht erreicht"),
   (0xFD, "Fehler Gasfeuerungsautomat"),
   (0xFE, "Starkes Stoerfeld (EMV) in der Naehe oder Elektronik defekt"),
   (0xFF, "Starkes Stoerfeld (EMV) in der Naehe oder interner Fehler")]

/-- ViDataES construction: raw bytes must decode (big-endian) to a known
error code.  ViDataES does not override `_create_from_value`, and the parent
method's abstract body is a no-op (the class is not an ABC), so a non-bytes
argument is silently accepted and leaves the object empty. -/
def ViDataES_create : PyVal → Except ViDataException (List Nat)
  | .raw b =>
    if (lookup_value ES_errorset (int_from_bytes_be b)).isSome then .ok b
    else .error (.vi_data_error "Unknown error code")
  | _ => .ok []

/-- `ViDataES.value`. -/
def ViDataES_value (b : List Nat) : Option String :=
  lookup_value ES_errorset (int_from_bytes_be b)

/-- ViDataIS10 construction: raw bytes are stored unchecked; a number is
multiplied by 10, truncated with `int`, and stored as a 2-byte little-endian
signed integer; a string goes through Python `int(value * 10)`, i.e. 10-fold
string repetition then integer parsing. -/
def ViDataIS10_create : PyVal → Except ViDataException (List Nat)
  | .raw b => .ok b
  | .num q => to_bytes_le_signed 2 (py_int (q * 10))
  | .str s =>
    match py_int_of_string (py_str_repeat s 10) with
    | some n => to_bytes_le_signed 2 n
    | none => .error .value_error

/-- `ViDataIS10.value`: signed little-endian interpretation divided by 10. -/
def ViDataIS10_value (b : List Nat) : ℚ :=
  (int_from_bytes_le_signed b : ℚ) / 10

/-- ViDataIU10 construction (like IS10 but unsigned). -/
def ViDataIU10_create : PyVal → Except ViDataException (List Nat)
  | .raw b => .ok b
  | .num q => to_bytes_le_unsigned 2 (py_int (q * 10))
  | .str s =>
    match py_int_of_string (py_str_repeat s 10) with
    | some n => to_bytes_le_unsigned 2 n
    | none => .error .value_error

/-- `ViDataIU10.value`. -/
def ViDataIU10_value (b : List Nat) : ℚ :=
  (int_from_bytes_le b : ℚ) / 10

/-- ViDataIU3600 construction: value times 3600, truncated, 2 bytes
little-endian unsigned. -/
def ViDataIU3600_create : PyVal → Except ViDataException (List Nat)
  | .raw b => .ok b
  | .num q => to_bytes_le_unsigned 2 (py_int (q * 3600))
  | .str s =>
    match py_int_of_string (py_str_repeat s 3600) with
    | some n => to_bytes_le_unsigned 2 n
    | none => .error .value_error

/-- `ViDataIU3600.value` (the source reads the bytes back signed). -/
def ViDataIU3600_value (b : List Nat) : ℚ :=
  (int_from_bytes_le_signed b : ℚ) / 3600

/-- ViDataIUNON construction: plain integer, 2 bytes little-endian
unsigned. -/
def ViDataIUNON_create : PyVal → Except ViDataException (List Nat)
  | .raw b => .ok b
  | .num q => to_bytes_le_unsigned 2 (py_int q)
  | .str s =>
    match py_int_of_string s with
    | some n => to_bytes_le_unsigned 2 n
    | none => .error .value_error

/-- `ViDataIUNON.value`: unsigned little-endian integer. -/
def ViDataIUNON_value (b : List Nat) : Nat :=
  int_from_bytes_le b

/-- `HEATING_ENERGY_FACTOR = 0.1`. -/
def HEATING_ENERGY_FACTOR : ℚ := 1 / 10

/-- One unsigned 16-bit little-endian word of the energy payload. -/
def u16_le_at (b : List Nat) (i : Nat) : Nat :=
  b.getD i 0 + 256 * b.getD (i + 1) 0

/-- The decoded composite energy record (`ViDataEnergy.value`). -/
structure EnergyValues where
  day : Nat
  week : Nat
  year : Nat
  heating_energy : ℚ
  heating_electrical_energy : ℚ
  water_energy : ℚ
  water_electrical_energy : ℚ
  cooling_energy : ℚ
  cooling_electrical_energy : ℚ
  total_energy : ℚ
  total_electrical_energy : ℚ
deriving DecidableEq, Repr

/-- `ViDataEnergy._create_from_raw` plus `value`: unpack `<4B6H`, i.e. four
bytes then six little-endian unsigned 16-bit words; the cooling pair reuses
the heating pair's raw words (`raw_data[4]`, `raw_data[5]`), exactly as the
source does. -/
def ViDataEnergy_value (b : List Nat) : EnergyValues :=
  let day := b.getD 1 0
  let year := 2000 + b.getD 2 0
  let week := b.getD 3 0
  let heating_energy := (u16_le_at b 4 : ℚ) * HEATING_ENERGY_FACTOR
  let heating_electrical_energy := (u16_le_at b 6 : ℚ) * HEATING_ENERGY_FACTOR
  let water_energy := (u16_le_at b 8 : ℚ) * HEATING_ENERGY_FACTOR
  let water_electrical_energy := (u16_le_at b 10 : ℚ) * HEATING_ENERGY_FACTOR
  let cooling_energy := (u16_le_at b 4 : ℚ) * HEATING_ENERGY_FACTOR
  let cooling_electrical_energy := (u16_le_at b 6 : ℚ) * HEATING_ENERGY_FACTOR
  { day := day
    week := week
    year := year
    heating_energy := heating_energy
    heating_electrical_energy := heating_electrical_energy
    water_energy := water_energy
    water_electrical_energy := water_electrical_energy
    cooling_energy := cooling_energy
    cooling_electrical_energy := cooling_electrical_energy
    total_energy := heating_energy + water_energy + cooling_energy
    total_electrical_energy :=
      heating_electrical_energy + water_electrical_energy + cooling_electrical_energy }

/-- ViDataEnergy construction: `unpack("<4B6H", value)` needs exactly 16
bytes (struct.error otherwise); any non-bytes argument raises the typed
error. -/
def ViDataEnergy_create : PyVal → Except ViDataException (List Nat)
  | .raw b => if b.length = 16 then .ok b else .error .struct_error
  | _ => .error (.vi_data_error "ViDataEnergy can only be created from bytes.")

/-- `ViData.create`: dispatch on the unit kind string; unknown kinds raise
the typed error. -/
def viData_create (datatype : String) (value : PyVal) : Except ViDataException (List Nat) :=
  if datatype = "BA" then ViDataBA_create value
  else if datatype = "DT" then ViDataDT_create value
  else if datatype = "IS10" then ViDataIS10_create value
  else if datatype = "IU10" then ViDataIU10_create value
  else if datatype = "IU3600" then ViDataIU3600_create value
  else if datatype = "IUNON" then ViDataIUNON_create value
  else if datatype = "RT" then ViDataRT_create value
  else if datatype = "OO" then ViDataOO_create value
  else if datatype = "ES" then ViDataES_create value
  else if datatype = "F_E" then ViDataEnergy_create value
  else .error (.vi_data_error "Unit not known")

/-- Control codes from viControl.py (`ctrlcode`). -/
def reset_cmd : List Nat := [0x04]

/-- SYNC command bytes. -/
def sync_cmd : List Nat := [0x16, 0x00, 0x00]

/-- ACKNOWLEDGE byte. -/
def acknowledge : List Nat := [0x06]

/-- NOT_INIT byte: interface waiting for initialization. -/
def not_init : List Nat := [0x05]

/-- ERROR byte reported by the interface. -/
def interface_error : List Nat := [0x15]

/-- viControlException cases raised by the session controller. -/
inductive viControlException
  | access_not_allowed
  | no_acknowledge (received : List Nat)
  | command_returned_error
  | could_not_init
deriving DecidableEq, Repr

/-- Any error escaping `execute_command`: controller, telegram or codec. -/
inductive ExecError
  | control (e : viControlException)
  | telegram (e : viTelegramError)
  | data (e : ViDataException)
deriving DecidableEq, Repr

/-- The access gate table of `viControl.execute_command`:
`{"read": ["read"], "write": ["read", "write"], "call": ["call"]}` keyed by
the command's tagged mode. -/
def allowed_access_mode : AccessMode → List AccessMode
  | .read => [.read]
  | .write => [.read, .write]
  | .call => [.call]

/-- `viControl.execute_command`, modelled against an abstract transport:
`reads` lists the successive results of the controller's read calls, the
first component of the result lists the byte strings written, in order.
The access gate runs before anything is sent; then the request telegram is
written, one acknowledge byte is read and checked, the response is read and
parsed, error-typed responses are rejected, an acknowledge is written back,
and the payload is decoded by the value codec. -/
def execute_command (vc : ViCommand) (access_mode : AccessMode) (payload : List Nat)
    (reads : List (List Nat)) : List (List Nat) × Except ExecError (List Nat) :=
  if access_mode ∉ allowed_access_mode vc.access_mode then
    ([], .error (.control .access_not_allowed))
  else
    match viTelegram_bytes ⟨vc, [0x00], [access_mode.byte], payload⟩ with
    | .error e => ([], .error (.telegram e))
    | .ok vt =>
      let ack := reads.getD 0 []
      if ack ≠ acknowledge then
        ([vt], .error (.control (.no_acknowledge ack)))
      else
        let vr := reads.getD 1 []
        match viTelegram_from_bytes vr with
        | .error e => ([vt], .error (.telegram e))
        | .ok t =>
          if t.tType = [0x03] then
            ([vt], .error (.control .command_returned_error))
          else
            match viData_create t.vicmd.unit (.raw t.payload) with
            | .error e => ([vt, acknowledge], .error (.data e))
            | .ok d => ([vt, acknowledge], .ok d)

/-- One iteration of the initialization loop: an acknowledge byte ends the
loop (no write), NOT_INIT sends the sync command, the error byte and
anything else (including an empty read) send the reset command. -/
def init_step (read_byte : List Nat) : Option (List Nat) :=
  if read_byte = acknowledge then none
  else if read_byte = not_init then some sync_cmd
  else if read_byte = interface_error then some reset_cmd
  else some reset_cmd

/-- The bounded initialization loop of `initialize_communication`: `reads i`
is the transport's answer to the single read of iteration `i`; returns the
writes made and whether the session became initialized. -/
def init_loop (reads : Nat → List Nat) : Nat → Nat → List (List Nat) × Bool
  | _, 0 => ([], false)
  | i, fuel + 1 =>
    match init_step (reads i) with
    | none => ([], true)
    | some w =>
      let rest := init_loop reads (i + 1) fuel
      (w :: rest.1, rest.2)

/-- `viControl.initialize_communication`: run the loop for up to 10
iterations; raise viControlException when no acknowledge arrived. -/
def initialize_communication (reads : Nat → List Nat) :
    List (List Nat) × Except viControlException Bool :=
  let r := init_loop reads 0 10
  (r.1, if r.2 then .ok true else .error .could_not_init)

lemma table_addr_len : ∀ c ∈ VITOCAL_WO1C, c.address.length = 2 := by decide

lemma table_addr_lookup : ∀ c ∈ VITOCAL_WO1C, viCommand_from_bytes c.address = some c := by
  decide

lemma table_cmd_len3 : ∀ c ∈ VITOCAL_WO1C, c.as_bytearray.length = 3 := by decide

/-- Parsing any frame of the wire shape start, length byte, type, mode, two
address bytes, value-length byte, payload, checksum succeeds and recovers
the fields, for arbitrary (unvalidated) length and value-length bytes. -/
lemma parse_wellformed (a1 a2 vb dl ty mb : Nat) (payload : List Nat) (c : ViCommand)
    (hfind : viCommand_from_bytes [a1, a2] = some c)
    (hlen3 : c.as_bytearray.length = 3)
    (hp : payload.length ≤ 250) :
    viTelegram_from_bytes
      (0x41 :: dl :: ty :: mb :: a1 :: a2 :: vb :: payload
        ++ [(dl + ty + mb + a1 + a2 + vb + payload.sum) % 256]) =
      .ok ⟨c, [ty], [mb], payload⟩ := by
  set l0 : List Nat := 0x41 :: dl :: ty :: mb :: a1 :: a2 :: vb :: payload with hl0
  set cs : Nat := (dl + ty + mb + a1 + a2 + vb + payload.sum) % 256 with hcs
  have hL : (0x41 :: dl :: ty :: mb :: a1 :: a2 :: vb :: payload ++ [cs]) = l0 ++ [cs] := by
    simp [hl0]
  rw [hL]
  have hlen : (l0 ++ [cs]).length = l0.length + 1 := by simp
  have hsub : (l0 ++ [cs]).length - 1 = l0.length := by
    rw [hlen]
    omega
  have hlast : (l0 ++ [cs]).drop ((l0 ++ [cs]).length - 1) = [cs] := by
    rw [hsub, List.drop_left]
  have hfirst : (l0 ++ [cs]).take ((l0 ++ [cs]).length - 1) = l0 := by
    rw [hsub, List.take_left]
  have hchk : checksum_byte l0 = [cs] := by
    rw [checksum_byte, checksum_val, if_neg (by simp [hl0]),
      if_neg (by simp [hl0, tStartByte])]
    simp only [hl0, List.drop_succ_cons, List.drop_zero, List.sum_cons, hcs]
    congr 1
    omega
  have hpl : l0.length = 7 + payload.length := by
    simp only [hl0, List.length_cons]
    omega
  unfold viTelegram_from_bytes
  dsimp only
  rw [hlast, hfirst, hchk, if_neg (by simp)]
  rw [if_neg (by simp [hl0, tStartByte])]
  have haddr : ((l0 ++ [cs]).drop 4).take 2 = [a1, a2] := by
    simp [hl0]
  rw [haddr, hfind]
  dsimp only
  have hpay : ((l0 ++ [cs]).drop 7).take ((l0 ++ [cs]).length - 1 - 7) = payload := by
    have h7 : (l0 ++ [cs]).drop 7 = payload ++ [cs] := by
      simp [hl0]
    have hlen7 : (l0 ++ [cs]).length - 1 - 7 = payload.length := by
      rw [hlen, hpl]
      omega
    rw [h7, hlen7, List.take_left]
  rw [hpay]
  rw [if_pos (by rw [hlen3]; omega)]
  have hty : ((l0 ++ [cs]).drop 2).take 1 = [ty] := by simp [hl0]
  have hmb : ((l0 ++ [cs]).drop 3).take 1 = [mb] := by simp [hl0]
  rw [hty, hmb]

/-- Building a telegram for a command with a two-byte address produces the
explicit frame with data length 5 plus the payload length. -/
lemma build_frame (c : ViCommand) (a1 a2 : Nat) (ha : c.address = [a1, a2])
    (ty mb : Nat) (payload : List Nat) (hp : payload.length ≤ 250) :
    viTelegram_bytes ⟨c, [ty], [mb], payload⟩ =
      .ok (0x41 :: (5 + payload.length) :: ty :: mb :: a1 :: a2 :: c.value_bytes :: payload
        ++ [((5 + payload.length) + ty + mb + a1 + a2 + c.value_bytes + payload.sum) % 256]) := by
  have hab : c.as_bytearray = [a1, a2, c.value_bytes] := by
    simp [ViCommand.as_bytearray, ha]
  unfold viTelegram_bytes
  dsimp only
  rw [hab]
  rw [if_pos (by simp; omega)]
  congr 1
  simp only [checksum_byte, checksum_val]
  rw [if_neg (by simp), if_neg (by simp [tStartByte])]
  simp [List.sum_append, tStartByte]
  omega

lemma from_bytes_mem {b : List Nat} {c : ViCommand}
    (h : viCommand_from_bytes b = some c) : c ∈ VITOCAL_WO1C := by
  unfold viCommand_from_bytes at h
  exact List.mem_of_find?_eq_some h

/-- The behavior of `viTelegram.from_bytes` on frames short enough for the
rebuilt data-length byte to fit: checksum check, then start-byte check, then
command resolution, then success. -/
lemma from_bytes_cases (b : List Nat) (hb : b.length ≤ 258) :
    viTelegram_from_bytes b =
      if b.drop (b.length - 1) ≠ checksum_byte (b.take (b.length - 1)) then
        .error (.checksum_not_valid (b.drop (b.length - 1))
          (checksum_byte (b.take (b.length - 1))))
      else if b.take 1 ≠ [tStartByte] then .error .startbyte_not_found
      else
        match viCommand_from_bytes ((b.drop 4).take 2) with
        | none => .error (.no_matching_command ((b.drop 4).take 2))
        | some vicmd =>
          .ok ⟨vicmd, (b.drop 2).take 1, (b.drop 3).take 1,
               (b.drop 7).take (b.length - 1 - 7)⟩ := by
  unfold viTelegram_from_bytes
  dsimp only
  by_cases h1 : b.drop (b.length - 1) ≠ checksum_byte (b.take (b.length - 1))
  · rw [if_pos h1, if_pos h1]
  · rw [if_neg h1, if_neg h1]
    by_cases h2 : b.take 1 ≠ [tStartByte]
    · rw [if_pos h2, if_pos h2]
    · rw [if_neg h2, if_neg h2]
      rcases hf : viCommand_from_bytes ((b.drop 4).take 2) with _ | c
      · rfl
      · dsimp only
        have h3 := table_cmd_len3 c (from_bytes_mem hf)
        rw [if_pos]
        rw [h3]
        have hple : ((b.drop 7).take (b.length - 1 - 7)).length ≤ 250 := by
          simp only [List.length_take, List.length_drop]
          omega
        omega

/-- Claim C6: for every command of the WO1C set, every transaction mode and
every payload whose frame data length fits one byte, parsing the built
telegram returns the original payload and resolves the original command. -/
theorem C6_frame_roundtrip :
    ∀ c ∈ VITOCAL_WO1C, ∀ m : AccessMode, ∀ payload : List Nat,
      payload.length ≤ 250 →
      ∃ frame t,
        viTelegram_bytes ⟨c, [0x00], [m.byte], payload⟩ = .ok frame ∧
        viTelegram_from_bytes frame = .ok t ∧
        t.payload = payload ∧ t.vicmd = c := by
  intro c hc m payload hp
  obtain ⟨a1, a2, ha⟩ := List.length_eq_two.mp (table_addr_len c hc)
  have hfind : viCommand_from_bytes [a1, a2] = some c := by
    rw [← ha]
    exact table_addr_lookup c hc
  exact ⟨_, ⟨c, [0x00], [m.byte], payload⟩,
    build_frame c a1 a2 ha 0x00 m.byte payload hp,
    parse_wellformed a1 a2 c.value_bytes (5 + payload.length) 0x00 m.byte payload c
      hfind (table_cmd_len3 c hc) hp,
    rfl, rfl⟩

/-- Witness for C6: round trip of a concrete telegram for command
Warmwassertemperatur in read mode with payload 07 08. -/
theorem C6_frame_roundtrip_witness :
    ∃ frame t,
      viTelegram_bytes
        ⟨⟨[0x01, 0x0d], "IS10", 2, .read, "Warmwassertemperatur", none, none⟩,
         [0x00], [AccessMode.read.byte], [0x07, 0x08]⟩ = .ok frame ∧
      viTelegram_from_bytes frame = .ok t ∧
      t.payload = [0x07, 0x08] ∧
      t.vicmd = ⟨[0x01, 0x0d], "IS10", 2, .read, "Warmwassertemperatur", none, none⟩ :=
  C6_frame_roundtrip _ (by decide) .read [0x07, 0x08] (by norm_num)

/-- A frame of 259 bytes whose checksum and start byte are valid and whose
address resolves to the command at 010d, but whose rebuilt data length does
not fit one byte. -/
def big_frame : List Nat :=
  [0x41, 0x05, 0x00, 0x01, 0x01, 0x0d, 0x02] ++ List.replicate 251 0 ++ [0x16]

set_option maxRecDepth 4000 in
/-- Claim C7, counterexample: `big_frame` passes the checksum check, starts
with 0x41 and resolves a known command, yet parsing raises the (builtin
overflow) error from rebuilding the data-length byte instead of
succeeding. -/
theorem C7_parse_counterexample :
    viTelegram_from_bytes big_frame = .error .int_too_big ∧
    big_frame.drop (big_frame.length - 1) =
      checksum_byte (big_frame.take (big_frame.length - 1)) ∧
    big_frame.take 1 = [tStartByte] ∧
    (viCommand_from_bytes ((big_frame.drop 4).take 2)).isSome = true := by
  refine ⟨by decide, by decide, by decide, by decide⟩

/-- Claim C7, amended: for frames shorter than 259 bytes (so that the
rebuilt data-length byte fits), parsing raises the checksum exception,
naming expected and computed bytes, exactly when the trailing byte differs
from the checksum of the preceding bytes; then the start-byte exception
exactly when the first byte is not 0x41; then the unknown-command error
exactly when bytes 4..5 match no table address; otherwise it succeeds; the
length byte at position 1 and the value-length byte at position 6 are never
validated.  (For longer frames the data-length rebuild overflows even when
all three checks pass.) -/
theorem C7_parse_error_conditions :
    ∀ b : List Nat, b.length ≤ 258 →
      (viTelegram_from_bytes b =
          .error (.checksum_not_valid (b.drop (b.length - 1))
            (checksum_byte (b.take (b.length - 1)))) ↔
        b.drop (b.length - 1) ≠ checksum_byte (b.take (b.length - 1))) ∧
      (viTelegram_from_bytes b = .error .startbyte_not_found ↔
        (b.drop (b.length - 1) = checksum_byte (b.take (b.length - 1)) ∧
          b.take 1 ≠ [tStartByte])) ∧
      ((∃ a, viTelegram_from_bytes b = .error (.no_matching_command a)) ↔
        (b.drop (b.length - 1) = checksum_byte (b.take (b.length - 1)) ∧
          b.take 1 = [tStartByte] ∧
          viCommand_from_bytes ((b.drop 4).take 2) = none)) ∧
      ((∃ t, viTelegram_from_bytes b = .ok t) ↔
        (b.drop (b.length - 1) = checksum_byte (b.take (b.length - 1)) ∧
          b.take 1 = [tStartByte] ∧
          viCommand_from_bytes ((b.drop 4).take 2) ≠ none)) ∧
      (∀ lengthByte valueLenByte : Nat,
        viTelegram_from_bytes
          (0x41 :: lengthByte :: 0x00 :: 0x01 :: 0x01 :: 0x0d :: valueLenByte :: [] ++
            [(lengthByte + 0x00 + 0x01 + 0x01 + 0x0d + valueLenByte +
              ([] : List Nat).sum) % 256]) =
          .ok ⟨⟨[0x01, 0x0d], "IS10", 2, .read, "Warmwassertemperatur", none, none⟩,
               [0x00], [0x01], []⟩) := by
  intro b hb
  have h5 : ∀ lengthByte valueLenByte : Nat,
      viTelegram_from_bytes
        (0x41 :: lengthByte :: 0x00 :: 0x01 :: 0x01 :: 0x0d :: valueLenByte :: [] ++
          [(lengthByte + 0x00 + 0x01 + 0x01 + 0x0d + valueLenByte +
            ([] : List Nat).sum) % 256]) =
        .ok ⟨⟨[0x01, 0x0d], "IS10", 2, .read, "Warmwassertemperatur", none, none⟩,
             [0x00], [0x01], []⟩ :=
    fun lengthByte valueLenByte =>
      parse_wellformed 0x01 0x0d valueLenByte lengthByte 0x00 0x01 []
        ⟨[0x01, 0x0d], "IS10", 2, .read, "Warmwassertemperatur", none, none⟩
        (by decide) (by decide) (by norm_num)
  by_cases h1 : b.drop (b.length - 1) = checksum_byte (b.take (b.length - 1))
  · by_cases h2 : b.take 1 = [tStartByte]
    · rcases hf : viCommand_from_bytes ((b.drop 4).take 2) with _ | c
      · have hres : viTelegram_from_bytes b =
            .error (.no_matching_command ((b.drop 4).take 2)) := by
          rw [from_bytes_cases b hb, if_neg (not_not_intro h1),
            if_neg (not_not_intro h2), hf]
        exact ⟨by simp [hres, h1], by simp [hres, h2], by simp [hres, h1, h2, hf],
          by simp [hres, hf], h5⟩
      · have hres : viTelegram_from_bytes b =
            .ok ⟨c, (b.drop 2).take 1, (b.drop 3).take 1,
                 (b.drop 7).take (b.length - 1 - 7)⟩ := by
          rw [from_bytes_cases b hb, if_neg (not_not_intro h1),
            if_neg (not_not_intro h2), hf]
        exact ⟨by simp [hres, h1], by simp [hres, h2], by simp [hres, hf],
          by simp [hres, h1, h2, hf], h5⟩
    · have hres : viTelegram_from_bytes b = .error .startbyte_not_found := by
        rw [from_bytes_cases b hb, if_neg (not_not_intro h1), if_pos h2]
      exact ⟨by simp [hres, h1], by simp [hres, h1, h2], by simp [hres, h2],
        by simp [hres, h2], h5⟩
  · have hres : viTelegram_from_bytes b =
        .error (.checksum_not_valid (b.drop (b.length - 1))
          (checksum_byte (b.take (b.length - 1)))) := by
      rw [from_bytes_cases b hb, if_pos h1]
    exact ⟨by simp [hres, h1], by simp [hres, h1], by simp [hres, h1],
      by simp [hres, h1], h5⟩

/-- Witness for C7 at a concrete inconsistent-length frame: length byte 0
and value-length byte 9 are accepted for the command at 010d. -/
theorem C7_parse_error_conditions_witness :
    viTelegram_from_bytes
      (0x41 :: 0x00 :: 0x00 :: 0x01 :: 0x01 :: 0x0d :: 0x09 :: [] ++
        [(0x00 + 0x00 + 0x01 + 0x01 + 0x0d + 0x09 + ([] : List Nat).sum) % 256]) =
      .ok ⟨⟨[0x01, 0x0d], "IS10", 2, .read, "Warmwassertemperatur", none, none⟩,
           [0x00], [0x01], []⟩ :=
  ((C7_parse_error_conditions [] (by norm_num)).2.2.2.2) 0x00 0x09

/-- The raw response frame of literal scenario 4: reading command `1650`. -/
def response_bytes_1650 : List Nat :=
  [0x41, 0x09, 0x01, 0x01, 0x16, 0x50, 0x04, 0xe4, 0x29, 0x00, 0x00, 0x82]

/-- The 16-byte composite energy payload of literal scenario 5. -/
def energy_example_payload : List Nat :=
  [0x02, 0x02, 0x16, 0x09, 0x92, 0x03, 0xaa, 0x00, 0x99, 0x00, 0x2d, 0x00,
   0x00, 0x00, 0x00, 0x00]

/-- Claim C1: building a READ request telegram for the WO1C commands
Warmwassertemperatur (address 010d, length 2, IS10) and Anlagentyp (address
00f8, length 4) reproduces the literal wire bytes 41050001010d0216 and
4105000100f80402, with the frame laid out as start byte 0x41, data-length
byte, type byte 0x00, mode byte 0x01, two address bytes, value-length byte
and checksum byte. -/
theorem C1_read_request_wire_bytes :
    viCommand_by_name "Warmwassertemperatur" =
      some ⟨[0x01, 0x0d], "IS10", 2, .read, "Warmwassertemperatur", none, none⟩ ∧
    viTelegram_build
        ⟨[0x01, 0x0d], "IS10", 2, .read, "Warmwassertemperatur", none, none⟩ .read []
      = .ok [0x41, 0x05, 0x00, 0x01, 0x01, 0x0d, 0x02, 0x16] ∧
    viCommand_by_name "Anlagentyp" =
      some ⟨[0x00, 0xf8], "DT", 4, .read, "Anlagentyp", none, none⟩ ∧
    viTelegram_build ⟨[0x00, 0xf8], "DT", 4, .read, "Anlagentyp", none, none⟩ .read []
      = .ok [0x41, 0x05, 0x00, 0x01, 0x00, 0xf8, 0x04, 0x02] := by
  decide

/-- Claim C2: for a byte sequence whose first byte is the start byte 0x41
the checksum function returns the single byte holding the sum of all later
bytes mod 256; for the empty sequence and for sequences not starting with
0x41 it returns the zero byte (and, being a total function, raises
nothing). -/
theorem C2_checksum_spec :
    (∀ packet : List Nat, packet.head? = some tStartByte →
      checksum_byte packet = [(packet.drop 1).sum % 256]) ∧
    checksum_byte [] = [0x00] ∧
    (∀ packet : List Nat, packet.head? ≠ some tStartByte →
      checksum_byte packet = [0x00]) := by
  refine ⟨?_, by decide, ?_⟩
  · intro packet h
    cases packet with
    | nil => simp at h
    | cons a t =>
      simp only [List.head?_cons, Option.some.injEq] at h
      subst h
      simp [checksum_byte, checksum_val]
  · intro packet h
    cases packet with
    | nil => decide
    | cons a t =>
      simp only [List.head?_cons, ne_eq, Option.some.injEq] at h
      simp [checksum_byte, checksum_val, h]

/-- Witness for C2 at concrete inputs: a frame starting with 0x41, and a
packet starting with a different byte. -/
theorem C2_checksum_spec_witness :
    checksum_byte [0x41, 0x02, 0x03] = [(([0x02, 0x03] : List Nat).sum) % 256] ∧
    checksum_byte [0x07, 0x09] = [0x00] :=
  ⟨C2_checksum_spec.1 [0x41, 0x02, 0x03] rfl,
   C2_checksum_spec.2.2 [0x07, 0x09] (by decide)⟩

/-- Claim C3: `response_length` of a command is 3 + value length for READ,
3 for WRITE and 3 + value length for CALL; the telegram property adds the 4
header bytes and 1 checksum byte; parsing the response frame
41 09 01 01 16 50 04 e4 29 00 00 82 resolves the command at address 1650
(IUNON, value length 4), gives response_length 12 and payload value 10724. -/
theorem C3_response_length_spec :
    (∀ c : ViCommand,
      c.response_length .read = 3 + c.value_bytes ∧
      c.response_length .write = 3 ∧
      c.response_length .call = 3 + c.value_bytes) ∧
    (∀ t : ViTelegram, ∀ m : AccessMode, t.telegram_mode = some m →
      t.response_length = some (4 + t.vicmd.response_length m + 1)) ∧
    (viTelegram_from_bytes response_bytes_1650 =
      .ok ⟨⟨[0x16, 0x50], "IUNON", 4, .read, "WWwaerme", none, none⟩,
           [0x01], [0x01], [0xe4, 0x29, 0x00, 0x00]⟩ ∧
     (⟨⟨[0x16, 0x50], "IUNON", 4, .read, "WWwaerme", none, none⟩,
       [0x01], [0x01], [0xe4, 0x29, 0x00, 0x00]⟩ : ViTelegram).response_length
        = some 12 ∧
     ViDataIUNON_value [0xe4, 0x29, 0x00, 0x00] = 10724) := by
  refine ⟨?_, ?_, by decide⟩
  · intro c
    refine ⟨rfl, rfl, rfl⟩
  · intro t m h
    rw [ViTelegram.response_length, h]
    rfl

/-- Witness for C3 at the concrete parsed response telegram for command
1650 in read mode. -/
theorem C3_response_length_witness :
    (⟨⟨[0x16, 0x50], "IUNON", 4, .read, "WWwaerme", none, none⟩,
      [0x01], [0x01], [0xe4, 0x29, 0x00, 0x00]⟩ : ViTelegram).response_length
      = some (4 + ViCommand.response_length
          ⟨[0x16, 0x50], "IUNON", 4, .read, "WWwaerme", none, none⟩ .read + 1) :=
  C3_response_length_spec.2.1 _ .read rfl

lemma init_loop_shift (reads : Nat → List Nat) (i n : Nat) :
    ((List.range n).map fun t =>
        if reads (i + 1 + t) = not_init then sync_cmd else reset_cmd) =
      (List.range n).map
        ((fun t => if reads (i + t) = not_init then sync_cmd else reset_cmd) ∘ Nat.succ) := by
  apply List.map_congr_left
  intro t _
  have : i + 1 + t = i + Nat.succ t := by omega
  simp [Function.comp, this]

lemma init_loop_no_ack (reads : Nat → List Nat) :
    ∀ fuel i, (∀ j, j < fuel → reads (i + j) ≠ acknowledge) →
      init_loop reads i fuel =
        ((List.range fuel).map fun t =>
          if reads (i + t) = not_init then sync_cmd else reset_cmd, false) := by
  intro fuel
  induction fuel with
  | zero =>
    intro i _
    simp [init_loop]
  | succ n ih =>
    intro i h
    have h0 : reads i ≠ acknowledge := by simpa using h 0 (Nat.succ_pos n)
    have hrest : ∀ j, j < n → reads (i + 1 + j) ≠ acknowledge := by
      intro j hj
      have := h (j + 1) (by omega)
      simpa [show i + (j + 1) = i + 1 + j from by omega] using this
    rw [init_loop, init_step, if_neg h0]
    by_cases h5 : reads i = not_init
    · rw [if_pos h5]
      dsimp only
      rw [ih (i + 1) hrest, List.range_succ_eq_map, List.map_cons,
        init_loop_shift reads i n, List.map_map]
      simp [h5]
    · rw [if_neg h5]
      have hsplit : (if reads i = interface_error then some reset_cmd else some reset_cmd)
          = some reset_cmd := by
        split <;> rfl
      rw [hsplit]
      dsimp only
      rw [ih (i + 1) hrest, List.range_succ_eq_map, List.map_cons,
        init_loop_shift reads i n, List.map_map]
      simp [h5]

lemma init_loop_first_ack (reads : Nat → List Nat) :
    ∀ fuel i k, k < fuel → reads (i + k) = acknowledge →
      (∀ j, j < k → reads (i + j) ≠ acknowledge) →
      init_loop reads i fuel =
        ((List.range k).map fun t =>
          if reads (i + t) = not_init then sync_cmd else reset_cmd, true) := by
  intro fuel
  induction fuel with
  | zero =>
    intro i k hk
    omega
  | succ n ih =>
    intro i k hk hack hmin
    cases k with
    | zero =>
      have h0 : reads i = acknowledge := by simpa using hack
      rw [init_loop, init_step, if_pos h0]
      simp
    | succ k =>
      have h0 : reads i ≠ acknowledge := by simpa using hmin 0 (Nat.succ_pos k)
      have hack' : reads (i + 1 + k) = acknowledge := by
        simpa [show i + 1 + k = i + (k + 1) from by omega] using hack
      have hmin' : ∀ j, j < k → reads (i + 1 + j) ≠ acknowledge := by
        intro j hj
        have := hmin (j + 1) (by omega)
        simpa [show i + (j + 1) = i + 1 + j from by omega] using this
      rw [init_loop, init_step, if_neg h0]
      by_cases h5 : reads i = not_init
      · rw [if_pos h5]
        dsimp only
        rw [ih (i + 1) k (by omega) hack' hmin', List.range_succ_eq_map, List.map_cons,
          init_loop_shift reads i k, List.map_map]
        simp [h5]
      · rw [if_neg h5]
        have hsplit : (if reads i = interface_error then some reset_cmd else some reset_cmd)
            = some reset_cmd := by
          split <;> rfl
        rw [hsplit]
        dsimp only
        rw [ih (i + 1) k (by omega) hack' hmin', List.range_succ_eq_map, List.map_cons,
          init_loop_shift reads i k, List.map_map]
        simp [h5]

/-- Claim C5: the initialization handshake loops at most 10 times, one read
per iteration; an acknowledge ends it successfully, NOT_INIT sends exactly
one sync command, the error byte and any other read (including an empty
one) send one reset command, and a run of 10 iterations without an
acknowledge raises the typed initialization error.  A transport yielding
NOT_INIT then acknowledge leads to exactly one sync and success in 2
iterations; a transport always yielding the error byte leads to 10 resets
and failure. -/
theorem C5_initialization_handshake :
    (∀ reads : Nat → List Nat, (∀ j, j < 10 → reads j ≠ acknowledge) →
      initialize_communication reads =
        ((List.range 10).map fun t =>
          if reads t = not_init then sync_cmd else reset_cmd,
         .error .could_not_init)) ∧
    (∀ reads : Nat → List Nat, ∀ k, k < 10 → reads k = acknowledge →
      (∀ j, j < k → reads j ≠ acknowledge) →
      initialize_communication reads =
        ((List.range k).map fun t =>
          if reads t = not_init then sync_cmd else reset_cmd, .ok true)) ∧
    (initialize_communication (fun i => if i = 0 then not_init else acknowledge) =
      ([sync_cmd], .ok true)) ∧
    (initialize_communication (fun _ => interface_error) =
      (List.replicate 10 reset_cmd, .error .could_not_init)) ∧
    (∀ b : List Nat, init_step b = none ↔ b = acknowledge) ∧
    (∀ b : List Nat, b = not_init → init_step b = some sync_cmd) ∧
    (∀ b : List Nat, b ≠ acknowledge → b ≠ not_init → init_step b = some reset_cmd) := by
  refine ⟨?_, ?_, by rfl, by rfl, ?_, ?_, ?_⟩
  · intro reads h
    have := init_loop_no_ack reads 10 0 (by simpa using h)
    simp only [initialize_communication, this]
    simp
  · intro reads k hk hack hmin
    have := init_loop_first_ack reads 10 0 k hk (by simpa using hack) (by simpa using hmin)
    simp only [initialize_communication, this]
    simp
  · intro b
    constructor
    · intro h
      by_contra hne
      rw [init_step, if_neg hne] at h
      revert h
      split
      · simp
      · split <;> simp
    · intro h
      rw [init_step, if_pos h]
  · intro b h
    rw [init_step, if_neg (by rw [h]; decide), if_pos h]
  · intro b h1 h2
    rw [init_step, if_neg h1, if_neg h2]
    split <;> rfl

/-- Witness for C5: the NOT_INIT-then-acknowledge transport stops after one
sync command, by the general first-acknowledge characterization at k = 1. -/
theorem C5_initialization_handshake_witness :
    initialize_communication (fun i => if i = 0 then not_init else acknowledge) =
      ((List.range 1).map fun t =>
        if (fun i => if i = 0 then not_init else acknowledge) t = not_init then sync_cmd
        else reset_cmd, .ok true) :=
  C5_initialization_handshake.2.1 _ 1 (by norm_num) (by decide)
    (by
      intro j hj
      interval_cases j
      decide)

/-- Claim C10, counterexample: encoding the out-of-range value -1 with the
plain-integer kind IUNON raises Python's builtin OverflowError (from
`int.to_bytes`), not the typed ViDataError the claim requires. -/
theorem C10_overflow_counterexample :
    viData_create "IUNON" (.num (-1 : ℚ)) = .error .overflow_error := by
  have e : viData_create "IUNON" (.num (-1 : ℚ)) = ViDataIUNON_create (.num (-1 : ℚ)) := rfl
  rw [e]
  norm_num [ViDataIUNON_create, py_int, to_bytes_le_unsigned]

/-- Claim C10, amended: the factory raises the typed ViDataError on an
unrecognized kind string, on raw bytes without an entry in an enumerated
kind's lookup table (BA, DT, RT, OO, ES), on a semantic value outside the
allowed set of the enumerated kinds with value validation (BA, DT, RT, OO),
and on constructing the composite energy record from a non-bytes value;
but an out-of-range numeric value for the fixed-point and plain-integer
kinds raises the builtin OverflowError instead of the typed error. -/
theorem C10_typed_codec_errors :
    (∀ v : PyVal, ∀ dt : String,
      dt ∉ (["BA", "DT", "IS10", "IU10", "IU3600", "IUNON", "RT", "OO", "ES",
             "F_E"] : List String) →
      viData_create dt v = .error (.vi_data_error "Unit not known")) ∧
    (∀ b : List Nat, lookup_value BA_operating_modes (int_from_bytes_le b) = none →
      viData_create "BA" (.raw b) = .error (.vi_data_error "Unknown operating mode")) ∧
    (∀ b : List Nat, lookup_value DT_device_types (int_from_bytes_be b) = none →
      viData_create "DT" (.raw b) = .error (.vi_data_error "Unknown device code")) ∧
    (∀ b : List Nat, lookup_value RT_returnstatus (int_from_bytes_be b) = none →
      viData_create "RT" (.raw b) = .error (.vi_data_error "Unknown return status")) ∧
    (∀ b : List Nat, lookup_value OO_on_off (int_from_bytes_be b) = none →
      viData_create "OO" (.raw b) = .error (.vi_data_error "Unknown value")) ∧
    (∀ b : List Nat, lookup_value ES_errorset (int_from_bytes_be b) = none →
      viData_create "ES" (.raw b) = .error (.vi_data_error "Unknown error code")) ∧
    (∀ s : String, lookup_code BA_operating_modes s = none →
      viData_create "BA" (.str s) = .error (.vi_data_error "Unknown operating mode")) ∧
    (∀ s : String, lookup_code DT_device_types s = none →
      viData_create "DT" (.str s) = .error (.vi_data_error "Unknown device name")) ∧
    (∀ s : String, lookup_code RT_returnstatus s = none →
      viData_create "RT" (.str s) = .error (.vi_data_error "Unknown return status")) ∧
    (∀ s : String, lookup_code OO_on_off s = none →
      viData_create "OO" (.str s) = .error (.vi_data_error "Unknown value")) ∧
    (∀ q : ℚ, viData_create "F_E" (.num q) =
      .error (.vi_data_error "ViDataEnergy can only be created from bytes.")) ∧
    (∀ s : String, viData_create "F_E" (.str s) =
      .error (.vi_data_error "ViDataEnergy can only be created from bytes.")) ∧
    (∀ q : ℚ, py_int q < 0 ∨ 65536 ≤ py_int q →
      viData_create "IUNON" (.num q) = .error .overflow_error) ∧
    (∀ q : ℚ, 2 * py_int (q * 10) < -65536 ∨ 65536 ≤ 2 * py_int (q * 10) →
      viData_create "IS10" (.num q) = .error .overflow_error) := by
  refine ⟨?_, ?_, ?_, ?_, ?_, ?_, ?_, ?_, ?_, ?_, fun _ => rfl, fun _ => rfl, ?_, ?_⟩
  · intro v dt h
    simp only [List.mem_cons, List.not_mem_nil, or_false, not_or] at h
    obtain ⟨h1, h2, h3, h4, h5, h6, h7, h8, h9, h10⟩ := h
    simp [viData_create, h1, h2, h3, h4, h5, h6, h7, h8, h9, h10]
  · intro b h
    simp [viData_create, ViDataBA_create, h]
  · intro b h
    simp [viData_create, ViDataDT_create, h]
  · intro b h
    simp [viData_create, ViDataRT_create, h]
  · intro b h
    simp [viData_create, ViDataOO_create, h]
  · intro b h
    simp [viData_create, ViDataES_create, h]
  · intro s h
    simp [viData_create, ViDataBA_create, h]
  · intro s h
    simp [viData_create, ViDataDT_create, h]
  · intro s h
    simp [viData_create, ViDataRT_create, h]
  · intro s h
    simp [viData_create, ViDataOO_create, h]
  · intro q h
    have e : ((256 ^ 2 : Nat) : Int) = 65536 := by norm_num
    have hc : py_int q < 0 ∨ ((256 ^ 2 : Nat) : Int) ≤ py_int q := by
      rw [e]
      omega
    rw [show viData_create "IUNON" (.num q) = to_bytes_le_unsigned 2 (py_int q) from rfl,
      to_bytes_le_unsigned, if_pos hc]
  · intro q h
    have e : ((256 ^ 2 : Nat) : Int) = 65536 := by norm_num
    have hc : 2 * py_int (q * 10) < -((256 ^ 2 : Nat) : Int) ∨
        ((256 ^ 2 : Nat) : Int) ≤ 2 * py_int (q * 10) := by
      rw [e]
      omega
    rw [show viData_create "IS10" (.num q) = to_bytes_le_signed 2 (py_int (q * 10)) from rfl,
      to_bytes_le_signed, if_pos hc]

/-- Witness for C10 at concrete out-of-table inputs. -/
theorem C10_typed_codec_errors_witness :
    viData_create "BA" (.raw [0x66, 0x66]) =
      .error (.vi_data_error "Unknown operating mode") ∧
    viData_create "XX" (.str "foo") = .error (.vi_data_error "Unit not known") :=
  ⟨C10_typed_codec_errors.2.1 [0x66, 0x66] (by decide),
   C10_typed_codec_errors.1 (.str "foo") "XX" (by decide)⟩

lemma mem_allowed_iff_allows (a b : AccessMode) :
    b ∈ allowed_access_mode a ↔ a.allows b = true := by
  cases a <;> cases b <;> decide

/-- Claim C4: the access gate of command execution passes exactly when the
command's tagged mode allows the requested one, i.e. when the modes are
equal or the command is tagged WRITE and the request is READ or WRITE; the
gate table of `execute_command` agrees with `AccessMode.allows`; and a
failing check raises the typed error before any bytes are written. -/
theorem C4_access_mode_gate :
    (∀ tagged requested : AccessMode,
      (requested ∈ allowed_access_mode tagged ↔ tagged.allows requested = true) ∧
      (tagged.allows requested = true ↔
        (tagged = requested ∨
          (tagged = .write ∧ (requested = .read ∨ requested = .write))))) ∧
    (∀ vc : ViCommand, ∀ m : AccessMode, ∀ payload : List Nat,
      ∀ reads : List (List Nat),
      (vc.access_mode.allows m = false →
        execute_command vc m payload reads = ([], .error (.control .access_not_allowed))) ∧
      (vc.access_mode.allows m = true →
        (execute_command vc m payload reads).2 ≠
          .error (.control .access_not_allowed))) := by
  constructor
  · intro tagged requested
    refine ⟨mem_allowed_iff_allows tagged requested, ?_⟩
    cases tagged <;> cases requested <;> decide
  intro vc m payload reads
  constructor
  · intro h
    have hmem : m ∉ allowed_access_mode vc.access_mode := by
      rw [mem_allowed_iff_allows, h]
      simp
    simp [execute_command, hmem]
  · intro h
    have hmem : m ∈ allowed_access_mode vc.access_mode :=
      (mem_allowed_iff_allows _ _).mpr h
    rw [execute_command, if_neg (not_not_intro hmem)]
    rcases viTelegram_bytes ⟨vc, [0x00], [m.byte], payload⟩ with e | vt
    · simp
    · dsimp only
      by_cases hack : reads.getD 0 [] = acknowledge
      · rw [if_neg (not_not_intro hack)]
        rcases viTelegram_from_bytes (reads.getD 1 []) with e | t
        · simp
        · dsimp only
          by_cases ht : t.tType = [0x03]
          · simp [ht]
          · rw [if_neg ht]
            rcases viData_create t.vicmd.unit (.raw t.payload) with e | d <;> simp
      · rw [if_pos hack]
        simp

/-- Witness for C4: executing a READ-tagged command in write mode fails
with the typed access error and writes nothing. -/
theorem C4_access_mode_gate_witness :
    execute_command
      ⟨[0x01, 0x0d], "IS10", 2, .read, "Warmwassertemperatur", none, none⟩
      .write [] []
      = ([], .error (.control .access_not_allowed)) :=
  (C4_access_mode_gate.2 _ .write [] []).1 (by decide)

lemma int_from_bytes_le_two (m : Nat) (hm : m < 65536) :
    int_from_bytes_le (nat_to_bytes_le 2 m) = m := by
  simp [nat_to_bytes_le, int_from_bytes_le]
  omega

lemma int_from_bytes_le_signed_two (m : Nat) (hm : m < 65536) :
    int_from_bytes_le_signed (nat_to_bytes_le 2 m) =
      if 2 * m < 65536 then (m : Int) else (m : Int) - 65536 := by
  have hlen : (nat_to_bytes_le 2 m).length = 2 := rfl
  simp only [int_from_bytes_le_signed, int_from_bytes_le_two m hm, hlen]
  norm_num

lemma to_bytes_le_signed_two_ok (n : Int) (h1 : -32768 ≤ n) (h2 : n < 32768) :
    to_bytes_le_signed 2 n = .ok (nat_to_bytes_le 2 (Int.toNat (n % 65536))) := by
  unfold to_bytes_le_signed
  rw [if_neg]
  · norm_num
  · push_cast
    omega

lemma IS10_sle_round (n : Int) (h1 : -32768 ≤ n) (h2 : n < 32768) :
    int_from_bytes_le_signed (nat_to_bytes_le 2 (Int.toNat (n % 65536))) = n := by
  have hm : Int.toNat (n % 65536) < 65536 := by omega
  rw [int_from_bytes_le_signed_two _ hm]
  split_ifs with h
  · omega
  · omega

lemma IS10_num_roundtrip (q : ℚ) (h1 : -32768 ≤ py_int (q * 10))
    (h2 : py_int (q * 10) < 32768) :
    ∃ b, ViDataIS10_create (.num q) = .ok b ∧
      ViDataIS10_value b = (py_int (q * 10) : ℚ) / 10 := by
  refine ⟨nat_to_bytes_le 2 (Int.toNat (py_int (q * 10) % 65536)), ?_, ?_⟩
  · show to_bytes_le_signed 2 (py_int (q * 10)) = _
    exact to_bytes_le_signed_two_ok _ h1 h2
  · unfold ViDataIS10_value
    rw [IS10_sle_round _ h1 h2]

lemma py_int_intCast (n : Int) : py_int ((n : ℚ)) = n := by
  unfold py_int
  split_ifs with h
  · rw [← Int.cast_neg, Int.floor_intCast]
    omega
  · exact Int.floor_intCast n

/-- Claim C8: the IS10 codec encodes by multiplying by 10, truncating to an
integer and storing 2 bytes little-endian signed, and decodes by the signed
little-endian interpretation divided by 10; decode after encode is the
identity on every in-range value with one decimal digit, truncates toward
the encoded integer otherwise, and maps 10.15 to 10.1 and -9.856 to -9.8. -/
theorem C8_IS10_codec :
    (∀ q : ℚ, ViDataIS10_create (.num q) = to_bytes_le_signed 2 (py_int (q * 10))) ∧
    (∀ q : ℚ, -32768 ≤ py_int (q * 10) → py_int (q * 10) < 32768 →
      ∃ b, ViDataIS10_create (.num q) = .ok b ∧
        ViDataIS10_value b = (py_int (q * 10) : ℚ) / 10) ∧
    (∀ n : Int, -32768 ≤ n → n < 32768 →
      ∃ b, ViDataIS10_create (.num ((n : ℚ) / 10)) = .ok b ∧
        ViDataIS10_value b = (n : ℚ) / 10) ∧
    (∃ b, ViDataIS10_create (.num (10.15 : ℚ)) = .ok b ∧
      ViDataIS10_value b = (10.1 : ℚ)) ∧
    (∃ b, ViDataIS10_create (.num (-9.856 : ℚ)) = .ok b ∧
      ViDataIS10_value b = (-9.8 : ℚ)) := by
  have hmul : ∀ n : Int, py_int ((n : ℚ) / 10 * 10) = n := by
    intro n
    rw [div_mul_cancel₀ _ (by norm_num : (10 : ℚ) ≠ 0), py_int_intCast]
  have h1015 : py_int ((10.15 : ℚ) * 10) = 101 := by
    norm_num [py_int]
  have h9856 : py_int ((-9.856 : ℚ) * 10) = -98 := by
    norm_num [py_int]
  refine ⟨fun _ => rfl, IS10_num_roundtrip, ?_, ?_, ?_⟩
  · intro n hn1 hn2
    obtain ⟨b, hb, hv⟩ := IS10_num_roundtrip ((n : ℚ) / 10)
      (by rw [hmul]; exact hn1) (by rw [hmul]; exact hn2)
    exact ⟨b, hb, by rw [hv, hmul]⟩
  · obtain ⟨b, hb, hv⟩ := IS10_num_roundtrip (10.15 : ℚ)
      (by rw [h1015]; norm_num) (by rw [h1015]; norm_num)
    refine ⟨b, hb, ?_⟩
    rw [hv, h1015]
    norm_num
  · obtain ⟨b, hb, hv⟩ := IS10_num_roundtrip (-9.856 : ℚ)
      (by rw [h9856]; norm_num) (by rw [h9856]; norm_num)
    refine ⟨b, hb, ?_⟩
    rw [hv, h9856]
    norm_num

/-- Witness for C8 at the in-range integer tenth 101/10 = 10.1. -/
theorem C8_IS10_codec_witness :
    ∃ b, ViDataIS10_create (.num (((101 : Int) : ℚ) / 10)) = .ok b ∧
      ViDataIS10_value b = ((101 : Int) : ℚ) / 10 :=
  C8_IS10_codec.2.2.1 101 (by norm_num) (by norm_num)

/-- Claim C9, counterexample: decoding the example energy payload does not
give total_energy 198.2 (the decoded total is 198.1, because the cooling
pair duplicates the heating words: 91.4 + 15.3 + 91.4 = 198.1). -/
theorem C9_total_energy_counterexample :
    (ViDataEnergy_value energy_example_payload).total_energy ≠ (1982 / 10 : ℚ) := by
  norm_num [ViDataEnergy_value, u16_le_at, energy_example_payload, HEATING_ENERGY_FACTOR]

/-- Claim C9, amended: decoding the 16-byte payload 02 02 16 09 92 03 aa 00
99 00 2d 00 00 00 00 00 yields day 2, week 9, year 2022, heating 91.4,
heating electrical 17.0, water 15.3, water electrical 4.5, total energy
198.1 and total electrical energy 38.5, the totals being the sums of the
three thermal resp. electrical figures (cooling duplicating heating). -/
theorem C9_energy_decode :
    viData_create "F_E" (.raw energy_example_payload) = .ok energy_example_payload ∧
    (ViDataEnergy_value energy_example_payload).day = 2 ∧
    (ViDataEnergy_value energy_example_payload).week = 9 ∧
    (ViDataEnergy_value energy_example_payload).year = 2022 ∧
    (ViDataEnergy_value energy_example_payload).heating_energy = 914 / 10 ∧
    (ViDataEnergy_value energy_example_payload).heating_electrical_energy = 17 ∧
    (ViDataEnergy_value energy_example_payload).water_energy = 153 / 10 ∧
    (ViDataEnergy_value energy_example_payload).water_electrical_energy = 45 / 10 ∧
    (ViDataEnergy_value energy_example_payload).total_energy = 1981 / 10 ∧
    (ViDataEnergy_value energy_example_payload).total_electrical_energy = 385 / 10 ∧
    (ViDataEnergy_value energy_example_payload).total_energy =
      (ViDataEnergy_value energy_example_payload).heating_energy +
      (ViDataEnergy_value energy_example_payload).water_energy +
      (ViDataEnergy_value energy_example_payload).cooling_energy ∧
    (ViDataEnergy_value energy_example_payload).total_electrical_energy =
      (ViDataEnergy_value energy_example_payload).heating_electrical_energy +
      (ViDataEnergy_value energy_example_payload).water_electrical_energy +
      (ViDataEnergy_value energy_example_payload).cooling_electrical_energy := by
  refine ⟨by decide, ?_⟩
  norm_num [ViDataEnergy_value, u16_le_at, energy_example_payload, HEATING_ENERGY_FACTOR]
